import Mathlib

/-!
Shallow embedding of the request-lifecycle coordinator in
`packages/fetch/src/index.ts` (an axios wrapper).  JavaScript values that the
code inspects (response bodies, envelope fields) are modelled by `JsValue`;
machine integers are `Int`/`Nat`; the axios instance with its installed
interceptor chain is modelled by the explicit dispatch loop `runRequestF`.
-/

set_option autoImplicit false

/-- Model of the JavaScript values the coordinator inspects: primitives plus
string-keyed objects.  `jnan` models the IEEE NaN produced by `Number(...)`
on non-numeric text; arrays are not needed by any inspected code path. -/
inductive JsValue where
  | jnull
  | jundef
  | jbool (b : Bool)
  | jnum (n : Int)
  | jnan
  | jstr (s : String)
  | jobj (fields : List (String × JsValue))

/-- Field access `v?.k`: `undefined` on non-objects and missing keys, first
binding otherwise (JS objects have unique keys). -/
def getField : JsValue → String → JsValue
  | .jobj fields, key => go fields key
  | _, _ => .jundef
where go : List (String × JsValue) → String → JsValue
  | [], _ => .jundef
  | (k, v) :: rest, key => if k = key then v else go rest key

/-- JavaScript truthiness. -/
def truthy : JsValue → Bool
  | .jnull => false
  | .jundef => false
  | .jbool b => b
  | .jnum n => n ≠ 0
  | .jnan => false
  | .jstr s => s ≠ ""
  | .jobj _ => true

/-- Test for `undefined`/`null` (the `code !== undefined && code !== null`
check is a constructor test, not deep equality). -/
def isNullish : JsValue → Bool
  | .jundef => true
  | .jnull => true
  | _ => false

def isString : JsValue → Bool
  | .jstr _ => true
  | _ => false

/-- Model of JS `Number(s)` restricted to the numeral shapes the envelope
`code` field can take: optional sign followed by decimal digits; the empty
string converts to 0; anything else to NaN. -/
def jsNumberOfString (s : String) : JsValue :=
  match s.data with
  | [] => .jnum 0
  | '-' :: rest => if rest ≠ [] ∧ rest.all Char.isDigit then .jnum (-(digitsToNat rest)) else .jnan
  | l => if l.all Char.isDigit then .jnum (digitsToNat l) else .jnan
where digitsToNat (l : List Char) : Nat := l.foldl (fun acc c => acc * 10 + (c.toNat - '0'.toNat)) 0

/-- JS `||` on values: first operand when truthy, second otherwise. -/
def jsOr (a b : JsValue) : JsValue := if truthy a then a else b

/-- List membership as JS `Array.prototype.includes` (SameValueZero): only a
number compares equal to the configured numeric success codes; `NaN` is never
found because the configured list holds ordinary numbers. -/
def jsIncludes (codes : List Int) : JsValue → Bool
  | .jnum n => codes.contains n
  | _ => false

/-- Result of the default business-response parser: resolve with a value,
throw a `BusinessError(message, code)`, or reject with the empty-body error. -/
inductive ParseResult where
  | ok (v : JsValue)
  | businessError (message : JsValue) (code : JsValue)
  | emptyError (message : String)

/-- Transcription of `const code = typeof data?.code === "string" ?
Number(data.code) : data?.code;`. -/
def envelopeCode (data : JsValue) : JsValue :=
  let raw := getField data "code"
  match raw with
  | .jstr s => jsNumberOfString s
  | v => v

/-- Transcription of `const msg = data?.msg || data?.message || "业务处理失败";`. -/
def envelopeMsg (data : JsValue) : JsValue :=
  jsOr (getField data "msg") (jsOr (getField data "message") (.jstr "业务处理失败"))

/-- Transcription of `defaultResponseParser` from `createHttpRequest`
(`response.data` is the decoded body; a falsy/absent body is `jundef`). -/
def defaultResponseParser (successCodes : List Int) (data : JsValue) : ParseResult :=
  let code := envelopeCode data
  let msg := envelopeMsg data
  if truthy data then
    if ¬ isNullish code then
      if jsIncludes successCodes code then
        .ok (getField data "data")
      else
        .businessError msg code
    else
      .ok data
  else
    .emptyError "响应数据为空"

/-- Model of an HTTP response attached to an axios error (`error.response`). -/
structure HttpResponseM where
  status : Int
  data : JsValue

/-- Model of an `AxiosError` as inspected by the coordinator: `code`,
`message`, optional `response`, presence of `request`, and whether
`axios.isCancel(error)` holds. -/
structure AxErr where
  code : Option String := none
  message : String := ""
  response : Option HttpResponseM := none
  request : Bool := false
  isCancel : Bool := false

/-- Transcription of `defaultRetryCondition`:
`!!error.response && error.response.status >= 500 && error.response.status < 600`. -/
def defaultRetryCondition (error : AxErr) : Bool :=
  match error.response with
  | some r => decide (500 ≤ r.status) && decide (r.status < 600)
  | none => false

inductive LocaleM where
  | zh
  | en
deriving DecidableEq

/-- One locale's message table from `defaultResponseError`. -/
structure MessageTable where
  requestFailed : String
  serverError : Int → String
  unauthorized : String
  forbidden : String
  notFound : String
  internalServerError : String
  networkError : String
  timeout : String
  configError : String

/-- The `messages` constant of `defaultResponseError`. -/
def messages : LocaleM → MessageTable
  | .zh =>
    { requestFailed := "请求失败"
      serverError := fun status => s!"服务器异常({status})"
      unauthorized := "未授权，请重新登录"
      forbidden := "没有权限访问该资源"
      notFound := "请求的资源不存在"
      internalServerError := "服务器内部错误"
      networkError := "网络错误，请检查网络连接"
      timeout := "请求超时，请稍后重试"
      configError := "请求配置错误" }
  | .en =>
    { requestFailed := "Request failed"
      serverError := fun status => s!"Server error ({status})"
      unauthorized := "Unauthorized, please log in again"
      forbidden := "Forbidden, no access to this resource"
      notFound := "Resource not found"
      internalServerError := "Internal server error"
      networkError := "Network error, please check your connection"
      timeout := "Request timed out, please try again later"
      configError := "Request configuration error" }

/-- Whether the pattern occurs at the head of the text. -/
def charsStartWith : List Char → List Char → Bool
  | _, [] => true
  | [], _ :: _ => false
  | c :: cs, p :: ps => c = p && charsStartWith cs ps

/-- Index of the leftmost occurrence of the pattern in the text. -/
def findSubIdx (pat : List Char) : List Char → Option Nat
  | [] => if charsStartWith [] pat then some 0 else none
  | c :: rest =>
    if charsStartWith (c :: rest) pat then some 0
    else (findSubIdx pat rest).map (· + 1)

/-- Model of `String.prototype.includes`. -/
def containsSub (s pat : String) : Bool := (findSubIdx pat.data s.data).isSome

/-- The `data?.message || data?.msg || fallback` chain, narrowed to the string
message fields the server envelope carries (a non-string truthy field is out
of the modelled input space). -/
def jsMsgOr (v : JsValue) (fallback : String) : String :=
  match v with
  | .jstr s => if s = "" then fallback else s
  | _ => fallback

/-- The timeout test of `defaultResponseError`:
`error.code === "ECONNABORTED" || (error.message && error.message.includes("timeout"))`. -/
def isTimeoutShaped (error : AxErr) : Bool :=
  error.code = some "ECONNABORTED" || (error.message ≠ "" && containsSub error.message "timeout")

/-- Transcription of `defaultResponseError` from `createHttpRequest`: computes
the localized message and rewrites only `error.message`, then rejects with the
same error object. -/
def defaultResponseError (locale : LocaleM) (error : AxErr) : AxErr :=
  let msg := messages locale
  let emsg :=
    if isTimeoutShaped error then
      msg.timeout
    else
      match error.response with
      | some r =>
        let fromBody := jsMsgOr (getField r.data "message")
          (jsMsgOr (getField r.data "msg") (msg.serverError r.status))
        if r.status = 401 then msg.unauthorized
        else if r.status = 403 then msg.forbidden
        else if r.status = 404 then msg.notFound
        else if r.status = 500 then msg.internalServerError
        else fromBody
      | none =>
        if error.request then msg.networkError
        else if error.message ≠ "" then error.message
        else msg.configError
  { error with message := emsg }

/-- Escape of a string for the JSON output of `JSON.stringify` (quote and
backslash; other escapes are not exercised by the modelled inputs). -/
def jsonQuote (s : String) : String :=
  "\"" ++ String.join (s.data.map fun c =>
    if c = '"' then "\\\"" else if c = '\\' then "\\\\" else String.singleton c) ++ "\""

mutual
/-- Model of `JSON.stringify` on the value shapes of `JsValue`; object fields
with `undefined` values are omitted, as in JavaScript. -/
def jsonStringify : JsValue → String
  | .jnull => "null"
  | .jundef => "null"
  | .jbool b => if b then "true" else "false"
  | .jnum n => toString n
  | .jnan => "null"
  | .jstr s => jsonQuote s
  | .jobj fields => "\x7b" ++ String.intercalate "," (jsonFieldStrs fields) ++ "\x7d"

def jsonFieldStrs : List (String × JsValue) → List String
  | [] => []
  | (_, .jundef) :: rest => jsonFieldStrs rest
  | (k, v) :: rest => (jsonQuote k ++ ":" ++ jsonStringify v) :: jsonFieldStrs rest
end

/-- Input domain of `safeSerializer` in `defaultGenerateRequestKey`: a string,
`null`/`undefined`, a `FormData` given by its field-name/value entries (values
already stringified by `String(val)`), a JSON-serializable structured value,
or a value whose `JSON.stringify` throws, carrying its `String(v)` text. -/
inductive ReqValue where
  | vstr (s : String)
  | vnull
  | vform (entries : List (String × String))
  | vjson (j : JsValue)
  | vunser (text : String)

/-- Transcription of `safeSerializer`: strings pass through, nullish values
become `""`, `FormData` entries are rendered `key=val`, sorted and joined by
`&` (JS default sort is lexicographic on the rendered strings), other values
go through `JSON.stringify`, and a throwing value yields the placeholder. -/
def safeSerializer : ReqValue → String
  | .vstr s => s
  | .vnull => ""
  | .vform entries =>
    String.intercalate "&"
      (List.insertionSort (· ≤ ·) (entries.map fun p => p.1 ++ "=" ++ p.2))
  | .vjson j => jsonStringify j
  | .vunser text => "[Unserializable value: " ++ text ++ "]"

/-- The per-call axios request config as the coordinator reads and writes it:
identity fields (`url`, `method`, `params`, `data`), the cancellation
`signal` (by controller id), and the `_retryCount` marker the retry logic
stores on the config (0 = absent). -/
structure ConfigM where
  url : String
  method : String
  params : ReqValue := .vnull
  data : ReqValue := .vnull
  signal : Option Nat := none
  retryCount : Nat := 0

/-- Model of `method.toUpperCase()` (HTTP method names are ASCII). -/
def toUpperM (s : String) : String := String.mk (s.data.map Char.toUpper)

/-- Transcription of `defaultGenerateRequestKey`:
`[url, method.toUpperCase(), s(params), s(data)].join("||")`. -/
def defaultGenerateRequestKey (config : ConfigM) : String :=
  String.intercalate "||"
    [config.url, toUpperM config.method, safeSerializer config.params, safeSerializer config.data]

/-- Transcription of the `IPendingRequest` record; the `AbortController` is
identified by the numeric id under which the model allocated it. -/
structure IPendingRequest where
  timestamp : Int
  controller : Nat
  url : String
  method : String
  requestKey : String
deriving DecidableEq

/-- The `pendingRequests` map, modelled as an association list with unique
keys; `mapSet` places the updated binding at the front, observationally
equivalent to `Map.set` for lookup and deletion. -/
abbrev PendingMap := List (String × IPendingRequest)

def mapGet : PendingMap → String → Option IPendingRequest
  | [], _ => none
  | (k, v) :: rest, key => if k = key then some v else mapGet rest key

def mapDelete (m : PendingMap) (key : String) : PendingMap :=
  m.filter fun p => p.1 ≠ key

def mapSet (m : PendingMap) (key : String) (v : IPendingRequest) : PendingMap :=
  (key, v) :: mapDelete m key

/-- Mutable state of one `HttpRequest` instance plus the model's bookkeeping:
the pending map, the current `Date.now()` clock, the id of the next
`AbortController` to be allocated, the aborted controllers with the abort
reasons, and ghost counters for transport invocations, entry registrations
(`pendingRequests.set`) and removals by the response interceptors
(`removeRequest`). -/
structure SimState where
  pending : PendingMap := []
  now : Int := 0
  nextCid : Nat := 0
  aborts : List (Nat × String) := []
  calls : Nat := 0
  registers : Nat := 0
  settles : Nat := 0

/-- Abort reason used when a duplicate supersedes a pending request:
`重复请求被取消: ${config.url}`. -/
def dupCancelMsg (url : String) : String := "重复请求被取消: " ++ url

/-- Transcription of `checkDuplicateRequest`: look the key up; if an entry
exists and is younger than `debounceTime`, abort its controller; drop the
entry either way; then allocate a fresh `AbortController`, overwrite
`config.signal` with it, and install a new entry. -/
def checkDuplicateRequest (debounceTime : Int) (st : SimState) (config : ConfigM) :
    SimState × ConfigM :=
  let requestKey := defaultGenerateRequestKey config
  let st1 :=
    match mapGet st.pending requestKey with
    | some existing =>
      let stA :=
        if st.now - existing.timestamp < debounceTime then
          { st with aborts := (existing.controller, dupCancelMsg config.url) :: st.aborts }
        else st
      { stA with pending := mapDelete stA.pending requestKey }
    | none => st
  let controller := st1.nextCid
  let config1 := { config with signal := some controller }
  ({ st1 with
      pending := mapSet st1.pending requestKey
        { timestamp := st1.now
          controller := controller
          url := config.url
          method := if config.method = "" then "get" else config.method
          requestKey := requestKey }
      nextCid := st1.nextCid + 1
      registers := st1.registers + 1 },
    config1)

/-- Transcription of `removeRequest`: recompute the key and delete the entry
unconditionally. -/
def removeRequest (st : SimState) (config : ConfigM) : SimState :=
  { st with
      pending := mapDelete st.pending (defaultGenerateRequestKey config)
      settles := st.settles + 1 }

/-- Transcription of `cancelRequest`: abort and drop every entry whose URL
matches the filter, or every entry when no URL is given. -/
def cancelRequest (st : SimState) (url : Option String)
    (message : String := "请求已手动取消") : SimState :=
  let shouldCancel : IPendingRequest → Bool := fun req =>
    match url with
    | some u => req.url = u
    | none => true
  { st with
      pending := st.pending.filter fun p => ¬ shouldCancel p.2
      aborts :=
        ((st.pending.filter fun p => shouldCancel p.2).map fun p => (p.2.controller, message))
          ++ st.aborts }

/-- Construction-time options of the instance (defaults as in the source);
only the fields the modelled code paths read are carried. -/
structure HttpOptions where
  debounceTime : Int := 200
  locale : LocaleM := .zh
  successCodes : List Int := [200]
  retryTimes : Nat := 0
  retryDelay : Int := 1000

/-- Outcome of one raw transport dispatch (the axios adapter), indexed by the
invocation counter: either a decoded response body or an `AxiosError`. -/
inductive TransportOutcome where
  | ok (data : JsValue)
  | err (e : AxErr)

/-- Terminal outcome of one facade call under the default factory
configuration (default parser and default response-error interceptor). -/
inductive CallResult where
  | resolved (v : JsValue)
  | cancelled (e : AxErr)
  | businessFailure (message : JsValue) (code : JsValue)
  | emptyResponse (message : String)
  | transportFailure (e : AxErr)
  | outOfFuel

/-- One full dispatch through `this.instance.request` under the interceptors
installed by `setupInterceptors` with the defaults of `createHttpRequest`:
the request interceptor runs `checkDuplicateRequest` (the default
`requestSuccess` stage only injects an auth header and is identity here),
the transport runs, and the response interceptors run `removeRequest`, the
cancellation short-circuit, the retry logic and `defaultResponseParser` /
`defaultResponseError`.  The retry branch re-enters this same function
because `this.instance.request(config)` re-runs the whole interceptor
chain; `fuel` bounds that re-entry (the code's `_retryCount <= retryTimes`
guard makes `retryTimes + 1` invocations an upper bound, so any
`fuel ≥ retryTimes + 1` is exact). -/
def runRequestF (opts : HttpOptions) (transport : Nat → TransportOutcome) :
    Nat → SimState → ConfigM → SimState × CallResult
  | 0, st, _ => (st, .outOfFuel)
  | fuel + 1, st, config =>
    let r1 := checkDuplicateRequest opts.debounceTime st config
    let st1 := r1.1
    let config1 := r1.2
    let attempt := st1.calls
    let st2 := { st1 with calls := st1.calls + 1 }
    match transport attempt with
    | .ok d =>
      let st3 := removeRequest st2 config1
      match defaultResponseParser opts.successCodes d with
      | .ok v => (st3, .resolved v)
      | .businessError m c => (st3, .businessFailure m c)
      | .emptyError m => (st3, .emptyResponse m)
    | .err e0 =>
      let st3 := removeRequest st2 config1
      if e0.isCancel then
        (st3, .cancelled e0)
      else if 0 < opts.retryTimes then
        let rc := config1.retryCount + 1
        let config2 := { config1 with retryCount := rc }
        if rc ≤ opts.retryTimes ∧ defaultRetryCondition e0 then
          runRequestF opts transport fuel
            { st3 with now := st3.now + opts.retryDelay } config2
        else
          (st3, .transportFailure (defaultResponseError opts.locale e0))
      else
        (st3, .transportFailure (defaultResponseError opts.locale e0))

/-- Group 1 of `contentDisposition.match(/filename="?(.+)"?/)`: after the
leftmost literal `filename=`, the greedy optional quote is consumed when
present, then `(.+)` greedily captures the entire remainder (at least one
character) because the trailing `"?` is satisfied by the empty string;
when the remainder is a lone quote, the leading `"?` backtracks and `(.+)`
captures the quote itself. -/
def matchFilenameGroup (cd : String) : Option String :=
  match findSubIdx "filename=".data cd.data with
  | none => none
  | some i =>
    match cd.data.drop (i + 9) with
    | [] => none
    | c :: cs =>
      if c = '"' then
        match cs with
        | [] => some (String.mk [c])
        | _ => some (String.mk cs)
      else some (String.mk (c :: cs))

def hexDigitVal (c : Char) : Option Nat :=
  if '0' ≤ c ∧ c ≤ '9' then some (c.toNat - '0'.toNat)
  else if 'a' ≤ c ∧ c ≤ 'f' then some (c.toNat - 'a'.toNat + 10)
  else if 'A' ≤ c ∧ c ≤ 'F' then some (c.toNat - 'A'.toNat + 10)
  else none

/-- Percent-decoding core of `decodeURIComponent`, on the code-point range the
claims exercise; a malformed escape is kept verbatim (JS would throw there,
outside the modelled input space). -/
def percentDecode : List Char → List Char
  | [] => []
  | '%' :: a :: b :: rest =>
    match hexDigitVal a, hexDigitVal b with
    | some ha, some hb => Char.ofNat (16 * ha + hb) :: percentDecode rest
    | _, _ => '%' :: percentDecode (a :: b :: rest)
  | c :: rest => c :: percentDecode rest

def decodeURIComponentM (s : String) : String := String.mk (percentDecode s.data)

/-- Filename selection of `download`: when a `content-disposition` header is
present and the regex matches with a truthy group, the decoded group replaces
the caller-supplied `fileName` (default `"download"`). -/
def deriveFileName (contentDisposition : Option String) (fileName : String := "download") :
    String :=
  match contentDisposition with
  | none => fileName
  | some cd =>
    match matchFilenameGroup cd with
    | some g => if g ≠ "" then decodeURIComponentM g else fileName
    | none => fileName

/-! ### Association-list map lemmas -/

theorem mapGet_mapSet_self (m : PendingMap) (k : String) (v : IPendingRequest) :
    mapGet (mapSet m k v) k = some v := by
  simp [mapSet, mapGet]

theorem mapDelete_mapDelete_self (m : PendingMap) (k : String) :
    mapDelete (mapDelete m k) k = mapDelete m k := by
  simp [mapDelete, List.filter_filter]

theorem mapDelete_mapSet_self (m : PendingMap) (k : String) (v : IPendingRequest) :
    mapDelete (mapSet m k v) k = mapDelete m k := by
  simp [mapSet, mapDelete, List.filter_filter]

theorem mapGet_mapDelete_self (m : PendingMap) (k : String) :
    mapGet (mapDelete m k) k = none := by
  induction m with
  | nil => rfl
  | cons p rest ih =>
    by_cases h : p.1 = k
    · simpa [mapDelete, h] using ih
    · simpa [mapDelete, mapGet, h] using ih

theorem mapDelete_of_get_none (m : PendingMap) (k : String)
    (h : mapGet m k = none) : mapDelete m k = m := by
  induction m with
  | nil => rfl
  | cons p rest ih =>
    by_cases hp : p.1 = k
    · simp [mapGet, hp] at h
    · have h2 : mapGet rest k = none := by simpa [mapGet, hp] using h
      simp only [mapDelete] at ih ⊢
      rw [List.filter_cons, if_pos (by simp [hp]), ih h2]

/-! ### checkDuplicateRequest lemmas -/

theorem genKey_ignores_signal_retry (cfg : ConfigM) (s : Option Nat) (r : Nat) :
    defaultGenerateRequestKey { cfg with signal := s, retryCount := r }
      = defaultGenerateRequestKey cfg := rfl

theorem checkDuplicateRequest_config (d : Int) (st : SimState) (cfg : ConfigM) :
    (checkDuplicateRequest d st cfg).2 = { cfg with signal := some st.nextCid } := by
  unfold checkDuplicateRequest
  cases h : mapGet st.pending (defaultGenerateRequestKey cfg) <;> simp [h] <;> split <;> rfl

theorem checkDuplicateRequest_calls (d : Int) (st : SimState) (cfg : ConfigM) :
    (checkDuplicateRequest d st cfg).1.calls = st.calls := by
  unfold checkDuplicateRequest
  cases h : mapGet st.pending (defaultGenerateRequestKey cfg) <;> simp [h] <;> split <;> rfl

theorem checkDuplicateRequest_registers (d : Int) (st : SimState) (cfg : ConfigM) :
    (checkDuplicateRequest d st cfg).1.registers = st.registers + 1 := by
  unfold checkDuplicateRequest
  cases h : mapGet st.pending (defaultGenerateRequestKey cfg) <;> simp [h] <;> split <;> rfl

theorem checkDuplicateRequest_settles (d : Int) (st : SimState) (cfg : ConfigM) :
    (checkDuplicateRequest d st cfg).1.settles = st.settles := by
  unfold checkDuplicateRequest
  cases h : mapGet st.pending (defaultGenerateRequestKey cfg) <;> simp [h] <;> split <;> rfl

theorem checkDuplicateRequest_nextCid (d : Int) (st : SimState) (cfg : ConfigM) :
    (checkDuplicateRequest d st cfg).1.nextCid = st.nextCid + 1 := by
  unfold checkDuplicateRequest
  cases h : mapGet st.pending (defaultGenerateRequestKey cfg) <;> simp [h] <;> split <;> rfl

theorem checkDuplicateRequest_now (d : Int) (st : SimState) (cfg : ConfigM) :
    (checkDuplicateRequest d st cfg).1.now = st.now := by
  unfold checkDuplicateRequest
  cases h : mapGet st.pending (defaultGenerateRequestKey cfg) <;> simp [h] <;> split <;> rfl

theorem checkDuplicateRequest_pending_delete (d : Int) (st : SimState) (cfg : ConfigM) :
    mapDelete (checkDuplicateRequest d st cfg).1.pending (defaultGenerateRequestKey cfg)
      = mapDelete st.pending (defaultGenerateRequestKey cfg) := by
  unfold checkDuplicateRequest
  cases h : mapGet st.pending (defaultGenerateRequestKey cfg) <;>
    simp [h, mapDelete_mapSet_self, mapDelete_mapDelete_self] <;>
    split <;> simp [mapDelete_mapSet_self, mapDelete_mapDelete_self]

theorem checkDuplicateRequest_aborts_of_none (d : Int) (st : SimState) (cfg : ConfigM)
    (h : mapGet st.pending (defaultGenerateRequestKey cfg) = none) :
    (checkDuplicateRequest d st cfg).1.aborts = st.aborts := by
  unfold checkDuplicateRequest
  simp [h]

theorem genKey_set_signal (cfg : ConfigM) (s : Option Nat) :
    defaultGenerateRequestKey { cfg with signal := s } = defaultGenerateRequestKey cfg := rfl

theorem genKey_set_retryCount (cfg : ConfigM) (r : Nat) :
    defaultGenerateRequestKey { cfg with retryCount := r } = defaultGenerateRequestKey cfg := rfl

/-! ### Dispatch-loop invariants -/


theorem runRequestF_state_delta (opts : HttpOptions) (tp : Nat → TransportOutcome) :
    ∀ (fuel : Nat) (st : SimState) (cfg : ConfigM), 1 ≤ fuel →
      (runRequestF opts tp fuel st cfg).1.pending
          = mapDelete st.pending (defaultGenerateRequestKey cfg) ∧
      ∃ n, 1 ≤ n ∧
        (runRequestF opts tp fuel st cfg).1.registers = st.registers + n ∧
        (runRequestF opts tp fuel st cfg).1.calls = st.calls + n ∧
        (runRequestF opts tp fuel st cfg).1.settles = st.settles + n := by
  intro fuel
  induction fuel with
  | zero => intro st cfg h; exact absurd h (by omega)
  | succ f ih =>
    intro st cfg _
    simp only [runRequestF]
    cases htp : tp ((checkDuplicateRequest opts.debounceTime st cfg).1.calls) with
    | ok d =>
      cases hp : defaultResponseParser opts.successCodes d <;>
        simp [hp, removeRequest, checkDuplicateRequest_config, genKey_set_signal,
          checkDuplicateRequest_calls, checkDuplicateRequest_registers,
          checkDuplicateRequest_settles, checkDuplicateRequest_pending_delete]
    | err e0 =>
      dsimp only
      by_cases hc : e0.isCancel = true
      · simp [hc, removeRequest, checkDuplicateRequest_config, genKey_set_signal,
          checkDuplicateRequest_calls, checkDuplicateRequest_registers,
          checkDuplicateRequest_settles, checkDuplicateRequest_pending_delete]
      · by_cases hr : 0 < opts.retryTimes
        · by_cases hcond :
            ((checkDuplicateRequest opts.debounceTime st cfg).2.retryCount + 1 ≤ opts.retryTimes
              ∧ defaultRetryCondition e0 = true)
          · rw [if_neg hc, if_pos hr, if_pos hcond]
            cases f with
            | zero =>
              simp [runRequestF, removeRequest, checkDuplicateRequest_config, genKey_set_signal,
                checkDuplicateRequest_calls, checkDuplicateRequest_registers,
                checkDuplicateRequest_settles, checkDuplicateRequest_pending_delete]
            | succ f2 =>
              have hres := ih
                { removeRequest
                    { (checkDuplicateRequest opts.debounceTime st cfg).1 with
                        calls := (checkDuplicateRequest opts.debounceTime st cfg).1.calls + 1 }
                    (checkDuplicateRequest opts.debounceTime st cfg).2 with
                    now := (removeRequest
                        { (checkDuplicateRequest opts.debounceTime st cfg).1 with
                            calls := (checkDuplicateRequest opts.debounceTime st cfg).1.calls + 1 }
                        (checkDuplicateRequest opts.debounceTime st cfg).2).now + opts.retryDelay }
                { (checkDuplicateRequest opts.debounceTime st cfg).2 with
                    retryCount := (checkDuplicateRequest opts.debounceTime st cfg).2.retryCount + 1 }
                (by omega)
              simp [removeRequest, checkDuplicateRequest_config, genKey_set_signal,
                genKey_set_retryCount, genKey_ignores_signal_retry, checkDuplicateRequest_calls,
                checkDuplicateRequest_registers, checkDuplicateRequest_settles,
                checkDuplicateRequest_pending_delete, mapDelete_mapDelete_self] at hres ⊢
              obtain ⟨hpend, n, hn, hreg, hcalls, hset⟩ := hres
              exact ⟨hpend, n + 1, by omega, by omega, by omega, by omega⟩
          · rw [if_neg hc, if_pos hr, if_neg hcond]
            simp [removeRequest, checkDuplicateRequest_config, genKey_set_signal,
              checkDuplicateRequest_calls, checkDuplicateRequest_registers,
              checkDuplicateRequest_settles, checkDuplicateRequest_pending_delete]
        · simp [hc, hr, removeRequest, checkDuplicateRequest_config, genKey_set_signal,
            checkDuplicateRequest_calls, checkDuplicateRequest_registers,
            checkDuplicateRequest_settles, checkDuplicateRequest_pending_delete]

theorem runRequestF_aborts_of_absent (opts : HttpOptions) (tp : Nat → TransportOutcome) :
    ∀ (fuel : Nat) (st : SimState) (cfg : ConfigM),
      mapGet st.pending (defaultGenerateRequestKey cfg) = none →
      (runRequestF opts tp fuel st cfg).1.aborts = st.aborts := by
  intro fuel
  induction fuel with
  | zero => intro st cfg _; rfl
  | succ f ih =>
    intro st cfg h
    simp only [runRequestF]
    cases htp : tp ((checkDuplicateRequest opts.debounceTime st cfg).1.calls) with
    | ok d =>
      cases hp : defaultResponseParser opts.successCodes d <;>
        simp [hp, removeRequest, checkDuplicateRequest_aborts_of_none opts.debounceTime st cfg h]
    | err e0 =>
      dsimp only
      by_cases hc : e0.isCancel = true
      · simp [hc, removeRequest, checkDuplicateRequest_aborts_of_none opts.debounceTime st cfg h]
      · by_cases hr : 0 < opts.retryTimes
        · by_cases hcond :
            ((checkDuplicateRequest opts.debounceTime st cfg).2.retryCount + 1 ≤ opts.retryTimes
              ∧ defaultRetryCondition e0 = true)
          · rw [if_neg hc, if_pos hr, if_pos hcond]
            have hres := ih
              { removeRequest
                  { (checkDuplicateRequest opts.debounceTime st cfg).1 with
                      calls := (checkDuplicateRequest opts.debounceTime st cfg).1.calls + 1 }
                  (checkDuplicateRequest opts.debounceTime st cfg).2 with
                  now := (removeRequest
                      { (checkDuplicateRequest opts.debounceTime st cfg).1 with
                          calls := (checkDuplicateRequest opts.debounceTime st cfg).1.calls + 1 }
                      (checkDuplicateRequest opts.debounceTime st cfg).2).now + opts.retryDelay }
              { (checkDuplicateRequest opts.debounceTime st cfg).2 with
                  retryCount := (checkDuplicateRequest opts.debounceTime st cfg).2.retryCount + 1 }
              (by
                simp [removeRequest, checkDuplicateRequest_config, genKey_set_signal,
                  genKey_set_retryCount, genKey_ignores_signal_retry, mapGet_mapDelete_self])
            simp [removeRequest, checkDuplicateRequest_config, genKey_set_signal,
              genKey_set_retryCount, genKey_ignores_signal_retry,
              checkDuplicateRequest_aborts_of_none opts.debounceTime st cfg h] at hres ⊢
            exact hres
          · rw [if_neg hc, if_pos hr, if_neg hcond]
            simp [removeRequest, checkDuplicateRequest_aborts_of_none opts.debounceTime st cfg h]
        · simp [hc, hr, removeRequest, checkDuplicateRequest_aborts_of_none opts.debounceTime st cfg h]

theorem runRequestF_default_single_call (tp : Nat → TransportOutcome)
    (st : SimState) (cfg : ConfigM) :
    (runRequestF {} tp 1 st cfg).1.calls = st.calls + 1 := by
  simp only [runRequestF]
  cases htp : tp ((checkDuplicateRequest ({} : HttpOptions).debounceTime st cfg).1.calls) with
  | ok d =>
    cases hp : defaultResponseParser ({} : HttpOptions).successCodes d <;>
      simp [hp, removeRequest, checkDuplicateRequest_calls]
  | err e0 =>
    dsimp only
    by_cases hc : e0.isCancel = true <;>
      simp [hc, removeRequest, checkDuplicateRequest_calls]

/-! ### Concrete fixtures for the claim instantiations -/

def exSuccess : JsValue := .jobj [("code", .jnum 200), ("data", .jobj [("id", .jstr "1")])]

def exFail : JsValue := .jobj [("code", .jnum 403), ("msg", .jstr "nope")]

def exStringCode : JsValue := .jobj [("code", .jstr "200"), ("data", .jstr "okpayload")]

def err503 : AxErr :=
  { message := "Request failed with status code 503", response := some ⟨503, .jundef⟩,
    request := true }

def err499 : AxErr :=
  { message := "Request failed with status code 499", response := some ⟨499, .jundef⟩,
    request := true }

def err600 : AxErr :=
  { message := "Request failed with status code 600", response := some ⟨600, .jundef⟩,
    request := true }

def netErr : AxErr := { message := "Network Error", request := true }

def cancelErr : AxErr := { message := "重复请求被取消: /a", isCancel := true }

def ex502 : AxErr :=
  { message := "Request failed with status code 502",
    response := some ⟨502, .jobj [("message", .jstr "upstream failure")]⟩, request := true }

def e401 : AxErr :=
  { message := "Request failed with status code 401", response := some ⟨401, .jundef⟩,
    request := true }

def tpFailThenOk : Nat → TransportOutcome
  | 0 => .err err503
  | _ => .ok exSuccess

def tpCancel : Nat → TransportOutcome := fun _ => .err cancelErr

def st0 : SimState := {}

def cfg0 : ConfigM := { url := "/a", method := "get" }

def optsRetry1 : HttpOptions := { retryTimes := 1 }

/-! ### Claim theorems -/

/-- Claim C1 (counterexample): a retried call is claimed never to install a
second `PendingEntry` (retry bypassing re-registration).  With `retryTimes = 1`
and a transport failing once with a retry-eligible 503 then succeeding, the
single logical call performs two transport invocations and the registry
records two entry installations, because `this.instance.request(config)`
re-runs the request interceptor and thus `checkDuplicateRequest`. -/
theorem retry_installs_second_pending_entry :
    (runRequestF optsRetry1 tpFailThenOk 2 st0 cfg0).1.registers = 2 ∧
    (runRequestF optsRetry1 tpFailThenOk 2 st0 cfg0).1.calls = 2 ∧
    (2 : Nat) ≠ 1 :=
  ⟨rfl, rfl, by decide⟩

/-- Claim C1 (amended): every attempt of a logical call — the original
dispatch and each retry re-entering the interceptor chain — installs exactly
one `PendingEntry` and removes exactly one (`register` and `settle` counts
both equal the transport invocation count), and after the call finishes by
any path the registry retains no entry for the call's key; in particular a
registry that was empty before the call is empty again afterwards. -/
theorem retry_register_settle_pairing (opts : HttpOptions) (tp : Nat → TransportOutcome)
    (fuel : Nat) (st : SimState) (cfg : ConfigM) (hfuel : 1 ≤ fuel) :
    (runRequestF opts tp fuel st cfg).1.pending
        = mapDelete st.pending (defaultGenerateRequestKey cfg) ∧
    (st.pending = [] → (runRequestF opts tp fuel st cfg).1.pending = []) ∧
    ∃ n, 1 ≤ n ∧
      (runRequestF opts tp fuel st cfg).1.registers = st.registers + n ∧
      (runRequestF opts tp fuel st cfg).1.calls = st.calls + n ∧
      (runRequestF opts tp fuel st cfg).1.settles = st.settles + n := by
  obtain ⟨hp, hn⟩ := runRequestF_state_delta opts tp fuel st cfg hfuel
  refine ⟨hp, fun h => ?_, hn⟩
  rw [h] at hp
  simpa [mapDelete] using hp

/-- Claim C1 (witness): the amended pairing instantiated on the concrete
retried call. -/
theorem retry_register_settle_pairing_witness :
    (runRequestF optsRetry1 tpFailThenOk 2 st0 cfg0).1.pending
        = mapDelete st0.pending (defaultGenerateRequestKey cfg0) ∧
    (st0.pending = [] → (runRequestF optsRetry1 tpFailThenOk 2 st0 cfg0).1.pending = []) ∧
    ∃ n, 1 ≤ n ∧
      (runRequestF optsRetry1 tpFailThenOk 2 st0 cfg0).1.registers = st0.registers + n ∧
      (runRequestF optsRetry1 tpFailThenOk 2 st0 cfg0).1.calls = st0.calls + n ∧
      (runRequestF optsRetry1 tpFailThenOk 2 st0 cfg0).1.settles = st0.settles + n :=
  retry_register_settle_pairing optsRetry1 tpFailThenOk 2 st0 cfg0 (by omega)

/-- Claim C2: evaluation of the default retry predicate.  The claim says it
returns true for a network-level failure with no response; the code returns
false there (contradicting the option's own doc comment and the package
README, which promise retry of network errors), while statuses in [500,600)
do return true. -/
theorem defaultRetryCondition_network_and_5xx :
    defaultRetryCondition netErr = false ∧
    defaultRetryCondition err503 = true ∧
    defaultRetryCondition err499 = false ∧
    defaultRetryCondition err600 = false :=
  ⟨rfl, rfl, rfl, rfl⟩

/-- Claim C3: with `retryTimes = 1` a transport failing once with a
retry-eligible failure then succeeding yields the success payload and exactly
two transport invocations; with the default `retryTimes = 0` every call
performs exactly one transport invocation regardless of outcome. -/
theorem retry_invocation_counts :
    ((runRequestF optsRetry1 tpFailThenOk 2 st0 cfg0).2
        = .resolved (.jobj [("id", .jstr "1")]) ∧
     (runRequestF optsRetry1 tpFailThenOk 2 st0 cfg0).1.calls = 2) ∧
    (∀ (tp : Nat → TransportOutcome) (st : SimState) (cfg : ConfigM),
      (runRequestF {} tp 1 st cfg).1.calls = st.calls + 1) :=
  ⟨⟨rfl, rfl⟩, runRequestF_default_single_call⟩

/-- Claim C4: classification by the default response parser — a numeric (or
numeral-as-text) envelope code in the configured success set yields the
envelope's `data` payload, any other code yields a `BusinessError` with the
envelope's message-or-fallback and that code, a body without a code passes
through unmodified, and an absent body yields the empty-response error; in
particular the two concrete examples of the claim. -/
theorem defaultResponseParser_classification (sc : List Int) (d : JsValue) :
    (truthy d = false → defaultResponseParser sc d = .emptyError "响应数据为空") ∧
    (∀ n : Int, truthy d = true → envelopeCode d = .jnum n →
      ((n ∈ sc → defaultResponseParser sc d = .ok (getField d "data")) ∧
       (n ∉ sc → defaultResponseParser sc d = .businessError (envelopeMsg d) (.jnum n)))) ∧
    (truthy d = true → isNullish (envelopeCode d) = true →
      defaultResponseParser sc d = .ok d) ∧
    defaultResponseParser [200] exSuccess = .ok (.jobj [("id", .jstr "1")]) ∧
    defaultResponseParser [200] exFail = .businessError (.jstr "nope") (.jnum 403) ∧
    defaultResponseParser [200] exStringCode = .ok (.jstr "okpayload") := by
  refine ⟨?_, ?_, ?_, rfl, rfl, rfl⟩
  · intro h
    simp [defaultResponseParser, h]
  · intro n ht hcode
    constructor
    · intro hmem
      simp [defaultResponseParser, ht, hcode, isNullish, jsIncludes, hmem]
    · intro hmem
      simp [defaultResponseParser, ht, hcode, isNullish, jsIncludes, hmem]
  · intro ht hnull
    simp [defaultResponseParser, ht, hnull]

/-- Claim C4 (witness): the classification applied to the concrete success
envelope and to an absent body. -/
theorem defaultResponseParser_classification_witness :
    defaultResponseParser [200] exSuccess = .ok (.jobj [("id", .jstr "1")]) ∧
    defaultResponseParser [200] .jundef = .emptyError "响应数据为空" :=
  ⟨((defaultResponseParser_classification [200] exSuccess).2.1 200 rfl rfl).1 (by decide),
   (defaultResponseParser_classification [200] .jundef).1 rfl⟩

/-- Claim C5: for two registrations with the same request key, the second one
arriving strictly within `debounceTime` of the first aborts the first's
controller with the superseded-duplicate reason, while a second arriving at or
after `debounceTime` aborts nothing (both calls proceed independently); either
way the new entry with the fresh controller replaces the old one. -/
theorem checkDuplicateRequest_debounce (debounce t0 t1 : Int) (st : SimState)
    (cfg1 cfg2 : ConfigM) (st1 : SimState)
    (hkey : defaultGenerateRequestKey cfg2 = defaultGenerateRequestKey cfg1)
    (hfresh : mapGet st.pending (defaultGenerateRequestKey cfg1) = none)
    (h1 : st1 = (checkDuplicateRequest debounce { st with now := t0 } cfg1).1) :
    (t1 - t0 < debounce →
      (st.nextCid, dupCancelMsg cfg2.url)
        ∈ (checkDuplicateRequest debounce { st1 with now := t1 } cfg2).1.aborts) ∧
    (debounce ≤ t1 - t0 →
      (checkDuplicateRequest debounce { st1 with now := t1 } cfg2).1.aborts = st.aborts) ∧
    mapGet (checkDuplicateRequest debounce { st1 with now := t1 } cfg2).1.pending
        (defaultGenerateRequestKey cfg2)
      = some { timestamp := t1, controller := st.nextCid + 1, url := cfg2.url,
               method := if cfg2.method = "" then "get" else cfg2.method,
               requestKey := defaultGenerateRequestKey cfg2 } := by
  subst h1
  refine ⟨?_, ?_, ?_⟩
  · intro h
    simp [checkDuplicateRequest, hkey, hfresh, mapGet_mapSet_self, h]
  · intro h
    simp [checkDuplicateRequest, hkey, hfresh, mapGet_mapSet_self, not_lt.mpr h]
  · by_cases h : t1 - t0 < debounce <;>
      simp [checkDuplicateRequest, hkey, hfresh, mapGet_mapSet_self, h]

/-- Claim C5 (witness): a concrete pair 100ms apart under a 200ms window, on
an initially empty registry. -/
theorem checkDuplicateRequest_debounce_witness :
    ((100 : Int) - 0 < 200 →
      (st0.nextCid, dupCancelMsg cfg0.url)
        ∈ (checkDuplicateRequest 200
            { (checkDuplicateRequest 200 { st0 with now := 0 } cfg0).1 with now := 100 }
            cfg0).1.aborts) ∧
    ((200 : Int) ≤ 100 - 0 →
      (checkDuplicateRequest 200
          { (checkDuplicateRequest 200 { st0 with now := 0 } cfg0).1 with now := 100 }
          cfg0).1.aborts = st0.aborts) ∧
    mapGet (checkDuplicateRequest 200
        { (checkDuplicateRequest 200 { st0 with now := 0 } cfg0).1 with now := 100 }
        cfg0).1.pending (defaultGenerateRequestKey cfg0)
      = some { timestamp := 100, controller := st0.nextCid + 1, url := cfg0.url,
               method := if cfg0.method = "" then "get" else cfg0.method,
               requestKey := defaultGenerateRequestKey cfg0 } :=
  checkDuplicateRequest_debounce 200 0 100 st0 cfg0 cfg0 _ rfl rfl rfl

/-- Claim C6 (counterexample): the claim says every response status outside
401/403/404/500 yields the generic server-error(status) template, but a 502
response whose body carries a `message` field yields that body message
instead of the template. -/
theorem defaultResponseError_prefers_body_message :
    (defaultResponseError .en ex502).message = "upstream failure" ∧
    (messages .en).serverError 502 = "Server error (502)" ∧
    "upstream failure" ≠ "Server error (502)" :=
  ⟨rfl, rfl, by decide⟩

/-- Claim C6 (amended): the default failure localizer rewrites only the
message field of the error; for a non-timeout-shaped failure carrying a
response, statuses 401/403/404/500 map to their status-specific localized
messages (401 under en being exactly "Unauthorized, please log in again" and
under zh its localized counterpart), and any other status yields the response
body's `message`/`msg` field when present and non-empty, otherwise the
generic server-error(status) template; all other error fields are unchanged. -/
theorem defaultResponseError_status_mapping (locale : LocaleM) (e : AxErr) :
    ((defaultResponseError locale e).code = e.code ∧
     (defaultResponseError locale e).response = e.response ∧
     (defaultResponseError locale e).request = e.request ∧
     (defaultResponseError locale e).isCancel = e.isCancel) ∧
    (∀ r : HttpResponseM, e.response = some r → isTimeoutShaped e = false →
      ((r.status = 401 →
          (defaultResponseError locale e).message = (messages locale).unauthorized) ∧
       (r.status = 403 →
          (defaultResponseError locale e).message = (messages locale).forbidden) ∧
       (r.status = 404 →
          (defaultResponseError locale e).message = (messages locale).notFound) ∧
       (r.status = 500 →
          (defaultResponseError locale e).message = (messages locale).internalServerError) ∧
       (r.status ≠ 401 → r.status ≠ 403 → r.status ≠ 404 → r.status ≠ 500 →
          (defaultResponseError locale e).message =
            jsMsgOr (getField r.data "message")
              (jsMsgOr (getField r.data "msg") ((messages locale).serverError r.status))))) ∧
    (messages .en).unauthorized = "Unauthorized, please log in again" ∧
    (messages .zh).unauthorized = "未授权，请重新登录" := by
  refine ⟨⟨rfl, rfl, rfl, rfl⟩, ?_, rfl, rfl⟩
  intro r hresp hnt
  refine ⟨?_, ?_, ?_, ?_, ?_⟩
  · intro h
    simp [defaultResponseError, hnt, hresp, h]
  · intro h
    simp [defaultResponseError, hnt, hresp, h]
  · intro h
    simp [defaultResponseError, hnt, hresp, h]
  · intro h
    simp [defaultResponseError, hnt, hresp, h]
  · intro h1 h2 h3 h4
    simp [defaultResponseError, hnt, hresp, h1, h2, h3, h4]

/-- Claim C6 (witness): the amended mapping at a concrete 401 failure under
locale en. -/
theorem defaultResponseError_status_mapping_witness :
    (defaultResponseError .en e401).message = (messages .en).unauthorized :=
  (((defaultResponseError_status_mapping .en e401).2.1) ⟨401, .jundef⟩ rfl (by decide)).1 rfl

/-- Claim C7: the default request-key generator is a deterministic function of
(method, URL, params, body); FormData bodies are serialized order-independently
(field entries rendered, sorted and joined), so permuted entry lists yield the
same key; and serialization is total, unserializable values mapping to the
placeholder string embedding their textual form. -/
theorem requestKey_determinism_and_formdata_order :
    (∀ c : ConfigM, defaultGenerateRequestKey c = defaultGenerateRequestKey c) ∧
    (∀ (u m : String) (p : ReqValue) (e1 e2 : List (String × String)), e1.Perm e2 →
      defaultGenerateRequestKey { url := u, method := m, params := p, data := .vform e1 }
        = defaultGenerateRequestKey { url := u, method := m, params := p, data := .vform e2 }) ∧
    (∀ text : String,
      safeSerializer (.vunser text) = "[Unserializable value: " ++ text ++ "]") := by
  refine ⟨fun _ => rfl, ?_, fun _ => rfl⟩
  intro u m p e1 e2 hperm
  have hsort : List.insertionSort (· ≤ ·) (e1.map fun q => q.1 ++ "=" ++ q.2)
      = List.insertionSort (· ≤ ·) (e2.map fun q => q.1 ++ "=" ++ q.2) :=
    List.eq_of_perm_of_sorted
      ((List.perm_insertionSort _ _).trans
        ((hperm.map _).trans (List.perm_insertionSort _ _).symm))
      (List.sorted_insertionSort _ _) (List.sorted_insertionSort _ _)
  simp only [defaultGenerateRequestKey, safeSerializer]
  rw [hsort]

/-- Claim C7 (witness): two FormData bodies with swapped fields yield the same
key. -/
theorem requestKey_determinism_and_formdata_order_witness :
    defaultGenerateRequestKey
        { url := "/u", method := "post", params := .vnull, data := .vform [("b", "2"), ("a", "1")] }
      = defaultGenerateRequestKey
        { url := "/u", method := "post", params := .vnull, data := .vform [("a", "1"), ("b", "2")] } :=
  requestKey_determinism_and_formdata_order.2.1 "/u" "post" .vnull _ _ (by decide)

/-- Claim C8: a failed attempt recognized by `axios.isCancel` is rejected to
the caller immediately with its cancellation classification, and no further
transport attempt is issued — the cancellation short-circuit precedes the
retry logic, whatever the retry configuration. -/
theorem cancellation_never_retried (opts : HttpOptions) (tp : Nat → TransportOutcome)
    (fuel : Nat) (st : SimState) (cfg : ConfigM) (e : AxErr)
    (hfuel : 1 ≤ fuel) (htp : tp st.calls = .err e) (hcancel : e.isCancel = true) :
    (runRequestF opts tp fuel st cfg).2 = .cancelled e ∧
    (runRequestF opts tp fuel st cfg).1.calls = st.calls + 1 := by
  obtain ⟨f, rfl⟩ : ∃ f, fuel = f + 1 := ⟨fuel - 1, by omega⟩
  simp only [runRequestF]
  rw [checkDuplicateRequest_calls, htp]
  dsimp only
  simp [hcancel, removeRequest, checkDuplicateRequest_calls]

/-- Claim C8 (witness): a transport cancelled on its first attempt, under a
generous retry budget, is surfaced as cancelled after exactly one invocation. -/
theorem cancellation_never_retried_witness :
    (runRequestF optsRetry1 tpCancel 3 st0 cfg0).2 = .cancelled cancelErr ∧
    (runRequestF optsRetry1 tpCancel 3 st0 cfg0).1.calls = st0.calls + 1 :=
  cancellation_never_retried optsRetry1 tpCancel 3 st0 cfg0 cancelErr (by omega) rfl rfl

/-- Claim C9: the claim says the name derived from a `content-disposition`
header matching `filename="..."` is exactly the quoted filename without the
surrounding quotes; the greedy regex `filename="?(.+)"?` actually captures
the closing quote as well, so the saved name keeps a trailing quote, while
the no-header path does use the caller default. -/
theorem download_filename_trailing_quote :
    deriveFileName (some "attachment; filename=\"report.pdf\"") "download" = "report.pdf\"" ∧
    "report.pdf\"" ≠ "report.pdf" ∧
    deriveFileName none "download" = "download" :=
  ⟨rfl, by decide, rfl⟩

/-- Claim C10: the request interceptor allocates a fresh controller and
unconditionally overwrites `config.signal` with it — the overwritten config
is independent of any caller-supplied signal and the registry stores exactly
the fresh controller; the dispatch loop itself aborts nothing when no
colliding entry pre-exists (so only duplicate supersession aborts there),
and `cancelRequest` aborts only controllers stored in the registry. -/
theorem config_signal_overwritten (d : Int) (st : SimState) (cfg : ConfigM) :
    (checkDuplicateRequest d st cfg).2.signal = some st.nextCid ∧
    (∀ s1 s2 : Option Nat,
      (checkDuplicateRequest d st { cfg with signal := s1 }).2
        = (checkDuplicateRequest d st { cfg with signal := s2 }).2) ∧
    Option.map (fun entry => entry.controller)
        (mapGet (checkDuplicateRequest d st cfg).1.pending (defaultGenerateRequestKey cfg))
      = some st.nextCid ∧
    (∀ (opts : HttpOptions) (tp : Nat → TransportOutcome) (fuel : Nat),
      mapGet st.pending (defaultGenerateRequestKey cfg) = none →
      (runRequestF opts tp fuel st cfg).1.aborts = st.aborts) ∧
    (∀ (url : Option String) (msg : String),
      ∀ p ∈ (cancelRequest st url msg).aborts,
        p ∈ st.aborts ∨ ∃ q ∈ st.pending, p = (q.2.controller, msg)) := by
  refine ⟨?_, ?_, ?_, ?_, ?_⟩
  · rw [checkDuplicateRequest_config]
  · intro s1 s2
    rw [checkDuplicateRequest_config, checkDuplicateRequest_config]
  · unfold checkDuplicateRequest
    cases h : mapGet st.pending (defaultGenerateRequestKey cfg) <;>
      simp [h, mapGet_mapSet_self]
    split <;> simp [mapGet_mapSet_self]
  · intro opts tp fuel h
    exact runRequestF_aborts_of_absent opts tp fuel st cfg h
  · intro url msg p hp
    simp only [cancelRequest, List.mem_append] at hp
    rcases hp with hp | hp
    · right
      rcases List.mem_map.mp hp with ⟨q, hq, rfl⟩
      exact ⟨q, (List.mem_filter.mp hq).1, rfl⟩
    · left
      exact hp

/-- Claim C10 (witness): a caller-supplied signal is discarded on the concrete
call, the fresh controller is stored, and the retried run on an empty registry
aborts nothing. -/
theorem config_signal_overwritten_witness :
    (checkDuplicateRequest 200 st0 { cfg0 with signal := some 99 }).2.signal
        = some st0.nextCid ∧
    (runRequestF optsRetry1 tpFailThenOk 2 st0 cfg0).1.aborts = st0.aborts :=
  ⟨(config_signal_overwritten 200 st0 { cfg0 with signal := some 99 }).1,
   (config_signal_overwritten 200 st0 cfg0).2.2.2.1 optsRetry1 tpFailThenOk 2 rfl⟩
